import Mathlib

/-!
A shallow embedding of the wificond interface-lifecycle control plane
(`server.cpp`, `ap_interface_impl.cpp`) and proofs about its behaviour.

External collaborators (netlink enumeration, the hostapd/supplicant
managers, the vendor qsap tool, the binder transport) are modelled as an
oracle environment `Env`; side effects on the kernel, on daemons and on
registered listeners are recorded as an explicit `Action` trace.
-/

namespace Wificond

/-- Result of network interface enumeration: `InterfaceInfo(index, name, mac)`. -/
structure InterfaceInfo where
  index : Nat
  name : String
  mac_address : List Nat
deriving DecidableEq, Repr

/-- `charsLead pre s` is true when `pre` is a leading run of `s` (char lists). -/
def charsLead : List Char → List Char → Bool
  | [], _ => true
  | _ :: _, [] => false
  | a :: as, b :: bs => a == b && charsLead as bs

/-- `android::base::StartsWith(s, pre)`. -/
def strStartsWith (s pre : String) : Bool :=
  charsLead pre.data s.data

/-- Interface mode constants of `NetlinkUtils::SetInterfaceMode`. -/
inductive IfMode
  | station
  | ap
deriving DecidableEq, Repr

/-- Events sent to a registered `IInterfaceEventCallback` listener. -/
inductive ListenerEvent
  | clientReady (idx : Nat)
  | apReady (idx : Nat)
  | clientTorndown (idx : Nat)
  | apTorndown (idx : Nat)
deriving DecidableEq, Repr

/-- The distinguishable log lines emitted on the failure/anomaly paths. -/
inductive LogMsg
  | conflictError          -- "Cannot create STA interface when other interfaces exist"
  | wiphyIndexFailed       -- "Failed to get wiphy index"
  | getInterfacesFailed    -- "Failed to get interfaces info from kernel"
  | noUsableInterface      -- "No usable interface found"
  | requestedInterfaceFailed -- "Failed to get requested interface"
  | noUsableNamed          -- "No usable interface found with name ..."
  | commandTooLong         -- "Command too long"
  | needMoreArgs           -- "Need additional args <bridge, sap0, sap1>"
  | dualStartFailed        -- "Failed to start dual hostapd"
  | stopFailed             -- "Failed to stop hostapd"
  | wrongCommand           -- "Wrong/Unknown command"
  | newStation             -- "New station ... associated with hotspot"
  | delStation             -- "Station ... disassociated from hotspot"
  | delStationAnomaly (n : Int) -- "Received DEL_STATION event when station counter is: n"
  | modeResetFailed        -- "Failed to set interface back to station mode"
deriving DecidableEq, Repr

/-- Externally observable effects on the kernel, daemons and listeners. -/
inductive Action
  | log (m : LogMsg)
  | subscribeRegDomain (wiphy : Nat)
  | unsubscribeRegDomain (wiphy : Nat)
  | fetchInterfaces (wiphy : Nat)       -- NetlinkUtils::GetInterfaces snapshot fetch
  | subscribeStation (idx : Nat)
  | unsubscribeStation (idx : Nat)
  | setUpState (name : String) (up : Bool)
  | setInterfaceMode (idx : Nat) (m : IfMode)
  | daemonStopAttempt                   -- hostapd_manager_->StopHostapd()
  | daemonStartAttempt                  -- hostapd_manager_->StartHostapd()
  | notifyImplDead (idx : Nat)          -- binder_->NotifyImplDead()
  | clientDestruct (idx : Nat)          -- ~ClientInterfaceImpl (body outside src)
  | notifyListener (cb : Nat) (ev : ListenerEvent)
  | qsapExec
  | qsapAddOrRemove (name : String) (add : Bool)
  | qsapBridge
  | qsapSetSoftap
  | binderStartHostapd (dual : Bool)
  | binderStopHostapd (dual : Bool)
deriving DecidableEq, Repr

/-- Transport status of a binder entry point.  `exception` is never built by
any entry point of this server; see `setHostapdParam_status_ok` etc. -/
inductive BinderStatus
  | ok
  | exception
deriving DecidableEq, Repr

/-- `ClientInterfaceImpl` construction arguments retained by the controller. -/
structure ClientCtrl where
  wiphy_index : Nat
  interface_name : String
  interface_index : Nat
  mac_address : List Nat
deriving DecidableEq, Repr

/-- `ApInterfaceImpl`: interface identity plus the associated-station counter
(initialised to 0 by the constructor). -/
structure ApCtrl where
  interface_name : String
  interface_index : Nat
  number_of_associated_stations : Int
deriving DecidableEq, Repr

/-- The mutable members of `Server`. -/
structure ServerState where
  base_ifname : String
  wiphy_index : Nat
  interfaces : List InterfaceInfo
  client_interfaces : List ClientCtrl
  ap_interfaces : List ApCtrl
  interface_event_callbacks : List Nat   -- listener binder identities
deriving DecidableEq, Repr

/-- Oracle for the external collaborators (netlink, ifc, qsap, binder). -/
structure Env where
  wiphy_index_for : String → Option Nat          -- GetWiphyIndexWithInterfaceName
  kernel_interfaces : Nat → Option (List InterfaceInfo)  -- GetInterfaces
  iface_index_of : String → Nat                  -- if_nametoindex, 0 on failure
  iface_hwaddr : String → Option (List Nat)      -- linux_get_ifhwaddr
  qsap_hostd_exec_zero : Bool                    -- qsap_hostd_exec(...) == 0
  qsap_add_or_remove_ok : String → Bool → Bool   -- qsap_add_or_remove_interface
  qsap_control_bridge_zero : Bool                -- qsap_control_bridge(...) == 0
  qsapset_softap_zero : Bool                     -- qsapsetSoftap(...) == 0
  start_hostapd_binder_ok : Bool                 -- IApInterface::startHostapd .isOk()
  stop_hostapd_binder_ok : Bool                  -- IApInterface::stopHostapd .isOk()

/-- Station events delivered to `ApInterfaceImpl::OnStationEvent`. -/
inductive StationEvent
  | new_station
  | del_station
deriving DecidableEq, Repr

/-- `ApInterfaceImpl::ApInterfaceImpl`: a fresh controller with the counter at 0. -/
def mkApCtrl (name : String) (idx : Nat) : ApCtrl :=
  ⟨name, idx, 0⟩

/-- `ApInterfaceImpl::OnStationEvent`. -/
def OnStationEvent (ap : ApCtrl) (ev : StationEvent) : ApCtrl × List Action :=
  match ev with
  | .new_station =>
    ({ ap with number_of_associated_stations := ap.number_of_associated_stations + 1 },
     [.log .newStation])
  | .del_station =>
    -- The disassociation line is logged before the counter check, on both
    -- branches.
    if ap.number_of_associated_stations ≤ 0 then
      (ap, [.log .delStation,
            .log (.delStationAnomaly ap.number_of_associated_stations)])
    else
      ({ ap with number_of_associated_stations := ap.number_of_associated_stations - 1 },
       [.log .delStation])

/-- `ApInterfaceImpl::GetNumberOfAssociatedStations`. -/
def GetNumberOfAssociatedStations (ap : ApCtrl) : Int :=
  ap.number_of_associated_stations

/-- Deliver a sequence of station events to one controller, accumulating logs. -/
def runStationEvents (ap : ApCtrl) : List StationEvent → ApCtrl × List Action
  | [] => (ap, [])
  | ev :: evs =>
    let r1 := OnStationEvent ap ev
    let r2 := runStationEvents r1.1 evs
    (r2.1, r1.2 ++ r2.2)

/-- Filter of `Server::SetupInterface`: a descriptor is usable for station
mode when its name is not `p2p0` and is not prefixed `aware_data` or `softap`. -/
def usableForStation (i : InterfaceInfo) : Bool :=
  decide (i.name ≠ "p2p0") &&
  !(strStartsWith i.name "aware_data") &&
  !(strStartsWith i.name "softap")

/-- `Server::SetupInterface`: conflict check, wiphy re-resolution, reg-domain
subscription, snapshot fetch, then first-usable selection.  Returns the chosen
descriptor (`none` on failure), the updated server state and the effect trace. -/
def SetupInterface (env : Env) (s : ServerState) :
    Option InterfaceInfo × ServerState × List Action :=
  if !s.client_interfaces.isEmpty then
    (none, s, [.log .conflictError])
  else
    match env.wiphy_index_for s.base_ifname with
    | none => (none, s, [.log .wiphyIndexFailed])
    | some w =>
      let s1 := { s with wiphy_index := w }
      match env.kernel_interfaces w with
      | none =>
        (none, { s1 with interfaces := [] },
         [.subscribeRegDomain w, .fetchInterfaces w, .log .getInterfacesFailed])
      | some ifs =>
        let s2 := { s1 with interfaces := ifs }
        match ifs.find? usableForStation with
        | some i => (some i, s2, [.subscribeRegDomain w, .fetchInterfaces w])
        | none =>
          (none, s2,
           [.subscribeRegDomain w, .fetchInterfaces w, .log .noUsableInterface])

/-- `Server::QcSetupInterface`: like `SetupInterface` but without the conflict
check, selecting by requested-name prefix, with an `if_nametoindex` fallback
for bridge pseudo-interfaces. -/
def QcSetupInterface (env : Env) (s : ServerState) (ifname : String) :
    Option InterfaceInfo × ServerState × List Action :=
  match env.wiphy_index_for s.base_ifname with
  | none => (none, s, [.log .wiphyIndexFailed])
  | some w =>
    let s1 := { s with wiphy_index := w }
    match env.kernel_interfaces w with
    | none =>
      (none, { s1 with interfaces := [] },
       [.subscribeRegDomain w, .fetchInterfaces w, .log .getInterfacesFailed])
    | some ifs =>
      let s2 := { s1 with interfaces := ifs }
      match ifs.find? (fun i => strStartsWith i.name ifname) with
      | some i => (some i, s2, [.subscribeRegDomain w, .fetchInterfaces w])
      | none =>
        let br := env.iface_index_of ifname
        if br = 0 then
          (none, s2,
           [.subscribeRegDomain w, .fetchInterfaces w,
            .log .requestedInterfaceFailed, .log .noUsableNamed])
        else
          match env.iface_hwaddr ifname with
          | some mac => (some ⟨br, ifname, mac⟩, s2,
                         [.subscribeRegDomain w, .fetchInterfaces w])
          | none =>
            (none, s2,
             [.subscribeRegDomain w, .fetchInterfaces w, .log .noUsableNamed])

/-- `Server::BroadcastClientInterfaceReady`. -/
def BroadcastClientInterfaceReady (cbs : List Nat) (idx : Nat) : List Action :=
  cbs.map (fun cb => .notifyListener cb (.clientReady idx))

/-- `Server::BroadcastApInterfaceReady`. -/
def BroadcastApInterfaceReady (cbs : List Nat) (idx : Nat) : List Action :=
  cbs.map (fun cb => .notifyListener cb (.apReady idx))

/-- `Server::BroadcastClientInterfaceTornDown`. -/
def BroadcastClientInterfaceTornDown (cbs : List Nat) (idx : Nat) : List Action :=
  cbs.map (fun cb => .notifyListener cb (.clientTorndown idx))

/-- `Server::BroadcastApInterfaceTornDown`. -/
def BroadcastApInterfaceTornDown (cbs : List Nat) (idx : Nat) : List Action :=
  cbs.map (fun cb => .notifyListener cb (.apTorndown idx))

/-- Result of a binder creation entry point: transport status, the out
parameter (written only on success, `none` = left untouched), the new server
state and the effect trace. -/
structure CreateResult (α : Type) where
  status : BinderStatus
  created : Option α
  state : ServerState
  trace : List Action
deriving DecidableEq, Repr

/-- `Server::createClientInterface`.  The body of the `ClientInterfaceImpl`
constructor lives outside `src/`, so only the registration and broadcast that
`server.cpp` itself performs are traced. -/
def createClientInterface (env : Env) (s : ServerState) : CreateResult ClientCtrl :=
  match SetupInterface env s with
  | (none, s1, acts) => ⟨.ok, none, s1, acts⟩
  | (some i, s1, acts) =>
    let c : ClientCtrl := ⟨s1.wiphy_index, i.name, i.index, i.mac_address⟩
    ⟨.ok, some c,
     { s1 with client_interfaces := s1.client_interfaces ++ [c] },
     acts ++ BroadcastClientInterfaceReady s1.interface_event_callbacks i.index⟩

/-- `Server::createApInterface`.  The `ApInterfaceImpl` constructor
subscribes to station events for the interface index. -/
def createApInterface (env : Env) (s : ServerState) : CreateResult ApCtrl :=
  match SetupInterface env s with
  | (none, s1, acts) => ⟨.ok, none, s1, acts⟩
  | (some i, s1, acts) =>
    let ap : ApCtrl := mkApCtrl i.name i.index
    ⟨.ok, some ap,
     { s1 with ap_interfaces := s1.ap_interfaces ++ [ap] },
     acts ++ [.subscribeStation i.index]
          ++ BroadcastApInterfaceReady s1.interface_event_callbacks i.index⟩

/-- `Server::QcCreateApInterface` (the requested name, already decoded). -/
def QcCreateApInterface (env : Env) (s : ServerState) (ifname : String) :
    CreateResult ApCtrl :=
  match QcSetupInterface env s ifname with
  | (none, s1, acts) => ⟨.ok, none, s1, acts⟩
  | (some i, s1, acts) =>
    let ap : ApCtrl := mkApCtrl i.name i.index
    ⟨.ok, some ap,
     { s1 with ap_interfaces := s1.ap_interfaces ++ [ap] },
     acts ++ [.subscribeStation i.index]
          ++ BroadcastApInterfaceReady s1.interface_event_callbacks i.index⟩

/-- `Server::RegisterCallback`: identity-compared de-duplicated append. -/
def RegisterCallback (s : ServerState) (cb : Nat) : BinderStatus × ServerState :=
  if cb ∈ s.interface_event_callbacks then
    (.ok, s)
  else
    (.ok, { s with interface_event_callbacks := s.interface_event_callbacks ++ [cb] })

/-- Remove the first identity match, as the erase loop in
`Server::UnregisterCallback` does. -/
def eraseFirst : List Nat → Nat → List Nat
  | [], _ => []
  | x :: xs, cb => if x = cb then xs else x :: eraseFirst xs cb

/-- `Server::UnregisterCallback`. -/
def UnregisterCallback (s : ServerState) (cb : Nat) : BinderStatus × ServerState :=
  (.ok, { s with interface_event_callbacks := eraseFirst s.interface_event_callbacks cb })

/-- `ApInterfaceImpl::~ApInterfaceImpl`: notify the binder dead, mark the
interface down, then unsubscribe from station events — in that order. -/
def apDestructTrace (ap : ApCtrl) : List Action :=
  [.notifyImplDead ap.interface_index,
   .setUpState ap.interface_name false,
   .unsubscribeStation ap.interface_index]

/-- Result of a state-mutating binder entry point without an out parameter. -/
structure OpResult where
  status : BinderStatus
  state : ServerState
  trace : List Action
deriving DecidableEq, Repr

/-- `Server::MarkDownAllInterfaces` (reads a fresh wiphy index and snapshot
into locals; the member state is untouched). -/
def MarkDownAllInterfaces (env : Env) (s : ServerState) : List Action :=
  match env.wiphy_index_for s.base_ifname with
  | none => []
  | some w =>
    match env.kernel_interfaces w with
    | none => []
    | some ifs => ifs.map (fun i => .setUpState i.name false)

/-- `Server::tearDownInterfaces`. -/
def tearDownInterfaces (env : Env) (s : ServerState) : OpResult :=
  ⟨.ok,
   { s with client_interfaces := [], ap_interfaces := [] },
   (s.client_interfaces.flatMap
      (fun c => BroadcastClientInterfaceTornDown s.interface_event_callbacks c.interface_index)) ++
   (s.client_interfaces.map (fun c => .clientDestruct c.interface_index)) ++
   (s.ap_interfaces.flatMap
      (fun ap => BroadcastApInterfaceTornDown s.interface_event_callbacks ap.interface_index)) ++
   (s.ap_interfaces.flatMap apDestructTrace) ++
   MarkDownAllInterfaces env s ++
   [.unsubscribeRegDomain s.wiphy_index]⟩

/-- `Server::tearDownStaInterfaces`. -/
def tearDownStaInterfaces (s : ServerState) : OpResult :=
  ⟨.ok,
   { s with client_interfaces := [] },
   (s.client_interfaces.flatMap
      (fun c => BroadcastClientInterfaceTornDown s.interface_event_callbacks c.interface_index)) ++
   (s.client_interfaces.map (fun c => .clientDestruct c.interface_index))⟩

/-- `Server::tearDownApInterfaces`: broadcast every torn-down event, then
clear the collection, running each `ApInterfaceImpl` destructor. -/
def tearDownApInterfaces (s : ServerState) : OpResult :=
  ⟨.ok,
   { s with ap_interfaces := [] },
   (s.ap_interfaces.flatMap
      (fun ap => BroadcastApInterfaceTornDown s.interface_event_callbacks ap.interface_index)) ++
   (s.ap_interfaces.flatMap apDestructTrace)⟩

/-- Collaborator outcomes consumed by `ApInterfaceImpl::StopHostapd`. -/
structure ApEnv where
  hostapd_stop_ok : Bool        -- hostapd_manager_->StopHostapd()
  set_up_state_ok : Bool        -- if_tool_->SetUpState(..., false)
  set_interface_mode_ok : Bool  -- netlink_utils_->SetInterfaceMode(..., STATION_MODE)
deriving DecidableEq, Repr

/-- `ApInterfaceImpl::StopHostapd`: stop the daemon, then take the interface
down, then reset the mode to station — with an early `return false` after the
first step that fails. -/
def StopHostapd (e : ApEnv) (ap : ApCtrl) : Bool × List Action :=
  if !e.hostapd_stop_ok then
    (false, [.daemonStopAttempt])
  else if !e.set_up_state_ok then
    (false, [.daemonStopAttempt, .setUpState ap.interface_name false])
  else if !e.set_interface_mode_ok then
    (false, [.daemonStopAttempt, .setUpState ap.interface_name false,
             .setInterfaceMode ap.interface_index .station, .log .modeResetFailed])
  else
    (true, [.daemonStopAttempt, .setUpState ap.interface_name false,
            .setInterfaceMode ap.interface_index .station])

/-- Server state plus the function-local `static sp<IApInterface> ap_interface`
slot of `Server::setHostapdParam`, which survives across calls. -/
structure DispatchState where
  server : ServerState
  apSlot : Option ApCtrl
deriving DecidableEq, Repr

/-- Result of the raw-command entry point: transport status, the
`out_success` flag, the dispatcher state and the effect trace. -/
structure CmdResult where
  status : BinderStatus
  success : Bool
  dstate : DispatchState
  trace : List Action
deriving DecidableEq, Repr

/-- The `startap dual <bridge> <sap0> <sap1>` block of
`Server::setHostapdParam`.  `QcCreateApInterface` returns an OK status on
every path (`QcCreateApInterface_status_ok` below), so the `.isOk()` checks
of the source's `&&` chain never cut the sequence short: all three creations
run, the static slot is updated only by a successful first creation, and
`startHostapd` is invoked whenever the slot is non-null. -/
def dualStartap (env : Env) (ds : DispatchState)
    (bridge sap0 sap1 : String) : CmdResult :=
  let r1 := QcCreateApInterface env ds.server bridge
  let slot1 : Option ApCtrl :=
    match r1.created with
    | some c => some c
    | none => ds.apSlot
  let r2 := QcCreateApInterface env r1.state sap0
  let r3 := QcCreateApInterface env r2.state sap1
  match slot1 with
  | none =>
    ⟨.ok, false, ⟨r3.state, none⟩,
     r1.trace ++ r2.trace ++ r3.trace ++ [.log .dualStartFailed]⟩
  | some c =>
    if env.start_hostapd_binder_ok then
      ⟨.ok, true, ⟨r3.state, some c⟩,
       r1.trace ++ r2.trace ++ r3.trace ++ [.binderStartHostapd true]⟩
    else
      ⟨.ok, false, ⟨r3.state, some c⟩,
       r1.trace ++ r2.trace ++ r3.trace
         ++ [.binderStartHostapd true, .log .dualStartFailed]⟩

/-- The two-token `startap` block: `createApInterface` into the static slot
(also always OK, see `createApInterface_status_ok`), then `startHostapd` on
the slot if non-null. -/
def singleStartap (env : Env) (ds : DispatchState) : CmdResult :=
  let r := createApInterface env ds.server
  let slot1 : Option ApCtrl :=
    match r.created with
    | some c => some c
    | none => ds.apSlot
  match slot1 with
  | none => ⟨.ok, false, ⟨r.state, none⟩, r.trace⟩
  | some c =>
    if env.start_hostapd_binder_ok then
      ⟨.ok, true, ⟨r.state, some c⟩, r.trace ++ [.binderStartHostapd false]⟩
    else
      ⟨.ok, false, ⟨r.state, some c⟩, r.trace ++ [.binderStartHostapd false]⟩

/-- The `stopap` blocks (`dual` selects the flag passed to `stopHostapd`).
The binder call runs only when the AP collection is non-empty and the slot is
non-null; on an OK status the collection is cleared (running the
`ApInterfaceImpl` destructors) and the slot is reset. -/
def stopApCmd (env : Env) (ds : DispatchState) (dual : Bool) : CmdResult :=
  if ds.server.ap_interfaces.isEmpty then
    ⟨.ok, false, ds, [.log .stopFailed]⟩
  else
    match ds.apSlot with
    | none => ⟨.ok, false, ds, [.log .stopFailed]⟩
    | some _ =>
      if env.stop_hostapd_binder_ok then
        ⟨.ok, true,
         ⟨{ ds.server with ap_interfaces := [] }, none⟩,
         [.binderStopHostapd dual] ++ ds.server.ap_interfaces.flatMap apDestructTrace⟩
      else
        ⟨.ok, false, ds, [.binderStopHostapd dual, .log .stopFailed]⟩

/-- `Server::setHostapdParam`, taking the whitespace-separated tokens of the
decoded command (the byte-to-text decode and tokenization are done by the
C++ standard library).  The token loop bails out with `out_success = false`
once an eleventh token is seen. -/
def setHostapdParam (env : Env) (ds : DispatchState) (tokens : List String) :
    CmdResult :=
  if tokens.length > 10 then
    ⟨.ok, false, ds, [.log .commandTooLong]⟩
  else
    match tokens with
    | _ :: a1 :: a2 :: rest =>
      if a1 = "qccmd" then
        ⟨.ok, env.qsap_hostd_exec_zero, ds, [.qsapExec]⟩
      else if a1 = "create" then
        ⟨.ok, env.qsap_add_or_remove_ok a2 true, ds, [.qsapAddOrRemove a2 true]⟩
      else if a1 = "remove" then
        ⟨.ok, env.qsap_add_or_remove_ok a2 false, ds, [.qsapAddOrRemove a2 false]⟩
      else if a1 = "bridge" then
        ⟨.ok, env.qsap_control_bridge_zero, ds, [.qsapBridge]⟩
      else if a1 = "startap" ∧ a2 = "dual" then
        match rest with
        | bridge :: sap0 :: sap1 :: _ => dualStartap env ds bridge sap0 sap1
        | _ => ⟨.ok, false, ds, [.log .needMoreArgs]⟩
      else if a1 = "stopap" ∧ a2 = "dual" then
        stopApCmd env ds true
      else if a1 = "setsoftap" then
        ⟨.ok, env.qsapset_softap_zero, ds, [.qsapSetSoftap]⟩
      else
        ⟨.ok, false, ds, []⟩
    | _ :: a1 :: [] =>
      if a1 = "startap" then
        singleStartap env ds
      else if a1 = "stopap" then
        stopApCmd env ds false
      else
        ⟨.ok, false, ds, []⟩
    | _ => ⟨.ok, false, ds, [.log .wrongCommand]⟩

/-- State after `n` sequential `createClientInterface` attempts. -/
def attemptN (env : Env) (s : ServerState) : Nat → ServerState
  | 0 => s
  | n + 1 => (createClientInterface env (attemptN env s n)).state

/-- `precedesB a b tr`: the first occurrence of `a` in `tr` is strictly
before some occurrence of `b`. -/
def precedesB (a b : Action) : List Action → Bool
  | [] => false
  | x :: xs => if x = a then decide (b ∈ xs) else precedesB a b xs

/-- Listener-registry operations arriving over binder. -/
inductive RegOp
  | reg (cb : Nat)
  | unreg (cb : Nat)
deriving DecidableEq, Repr

/-- Apply one registry operation to the server state. -/
def applyRegOp (s : ServerState) : RegOp → ServerState
  | .reg cb => (RegisterCallback s cb).2
  | .unreg cb => (UnregisterCallback s cb).2

/-- Run a sequence of registry operations. -/
def runRegOps (s : ServerState) : List RegOp → ServerState
  | [] => s
  | op :: ops => runRegOps (applyRegOp s op) ops

/-- A freshly constructed `Server` (base interface name `wlan0`, no
controllers, no listeners). -/
def initState : ServerState :=
  ⟨"wlan0", 0, [], [], [], []⟩

/-- A server state holding one registered station-mode controller. -/
def sConflict : ServerState :=
  { initState with client_interfaces := [⟨0, "wlan0", 1, []⟩] }

/-- The snapshot of the exclusion-list scenario: `p2p0`, `aware_data0`,
`softap0`, `wlan1`. -/
def snap9 : List InterfaceInfo :=
  [⟨1, "p2p0", []⟩, ⟨2, "aware_data0", []⟩, ⟨3, "softap0", []⟩, ⟨4, "wlan1", []⟩]

/-- A healthy environment: the radio resolves, the snapshot is `snap9`,
every collaborator call succeeds. -/
def env9 : Env where
  wiphy_index_for := fun n => if n = "wlan0" then some 0 else none
  kernel_interfaces := fun _ => some snap9
  iface_index_of := fun _ => 0
  iface_hwaddr := fun _ => none
  qsap_hostd_exec_zero := true
  qsap_add_or_remove_ok := fun _ _ => true
  qsap_control_bridge_zero := true
  qsapset_softap_zero := true
  start_hostapd_binder_ok := true
  stop_hostapd_binder_ok := true

/-- Like `env9` but the kernel snapshot holds only `softap0`. -/
def env4b : Env :=
  { env9 with kernel_interfaces := fun _ => some [⟨3, "softap0", []⟩] }

/-- Like `env9` but the kernel snapshot holds only `br0`: the bridge
resolves while `sap0`/`sap1` do not. -/
def env6 : Env :=
  { env9 with kernel_interfaces := fun _ => some [⟨3, "br0", []⟩] }

/-- Like `env9` but the kernel snapshot holds `br0`, `sap0` and `sap1`:
all three dual-AP sub-creations resolve. -/
def env6b : Env :=
  { env9 with
    kernel_interfaces := fun _ => some [⟨3, "br0", []⟩, ⟨4, "sap0", []⟩, ⟨5, "sap1", []⟩] }

/-- An AP controller fixture. -/
def apWlan : ApCtrl := ⟨"wlan0", 7, 0⟩

/-! ### Helper lemmas -/

theorem SetupInterface_conflict (env : Env) (s : ServerState)
    (h : s.client_interfaces ≠ []) :
    SetupInterface env s = (none, s, [.log .conflictError]) := by
  have he : s.client_interfaces.isEmpty = false := by
    cases hc : s.client_interfaces with
    | nil => exact absurd hc h
    | cons a l => rfl
  unfold SetupInterface
  rw [he]
  rfl

theorem createClientInterface_conflict (env : Env) (s : ServerState)
    (h : s.client_interfaces ≠ []) :
    createClientInterface env s = ⟨.ok, none, s, [.log .conflictError]⟩ := by
  unfold createClientInterface
  rw [SetupInterface_conflict env s h]

theorem createClientInterface_status_ok (env : Env) (s : ServerState) :
    (createClientInterface env s).status = .ok := by
  unfold createClientInterface
  cases h : SetupInterface env s with
  | mk i rest =>
    cases rest with
    | mk s1 acts => cases i <;> rfl

theorem createApInterface_status_ok (env : Env) (s : ServerState) :
    (createApInterface env s).status = .ok := by
  unfold createApInterface
  cases h : SetupInterface env s with
  | mk i rest =>
    cases rest with
    | mk s1 acts => cases i <;> rfl

theorem QcCreateApInterface_status_ok (env : Env) (s : ServerState) (n : String) :
    (QcCreateApInterface env s n).status = .ok := by
  unfold QcCreateApInterface
  cases h : QcSetupInterface env s n with
  | mk i rest =>
    cases rest with
    | mk s1 acts => cases i <;> rfl

/-! ### C1: single-station invariant -/

/-- **C1.** With at least one station controller registered, every sequential
`createClientInterface` attempt fails on the conflict check: the transport
status is OK, the out parameter stays unset, server state is byte-for-byte
unchanged, and the trace holds only the conflict log — no reg-domain
subscription, no snapshot fetch, no controller registration, no broadcast. -/
theorem claim_C1_station_conflict (env : Env) (s : ServerState)
    (h : s.client_interfaces ≠ []) (n : Nat) :
    attemptN env s n = s ∧
    createClientInterface env (attemptN env s n) =
      ⟨.ok, none, s, [.log .conflictError]⟩ := by
  have hstep : attemptN env s n = s := by
    induction n with
    | zero => rfl
    | succ m ih =>
      unfold attemptN
      rw [ih, createClientInterface_conflict env s h]
  refine ⟨hstep, ?_⟩
  rw [hstep, createClientInterface_conflict env s h]

/-- Witness for C1 at a concrete populated state and the third attempt. -/
theorem claim_C1_witness :
    attemptN env9 sConflict 2 = sConflict ∧
    createClientInterface env9 (attemptN env9 sConflict 2) =
      ⟨.ok, none, sConflict, [.log .conflictError]⟩ :=
  claim_C1_station_conflict env9 sConflict (by decide) 2

/-! ### C2: associated-station counter -/

theorem OnStationEvent_nonneg (ap : ApCtrl) (ev : StationEvent)
    (h : 0 ≤ ap.number_of_associated_stations) :
    0 ≤ (OnStationEvent ap ev).1.number_of_associated_stations := by
  unfold OnStationEvent
  cases ev with
  | new_station => dsimp; omega
  | del_station =>
    dsimp
    split
    · exact h
    · dsimp; omega

theorem runStationEvents_nonneg (evs : List StationEvent) (ap : ApCtrl)
    (h : 0 ≤ ap.number_of_associated_stations) :
    0 ≤ (runStationEvents ap evs).1.number_of_associated_stations := by
  induction evs generalizing ap with
  | nil => exact h
  | cons ev evs ih =>
    unfold runStationEvents
    exact ih _ (OnStationEvent_nonneg ap ev h)

/-- **C2.** Starting from a fresh AP controller, after any sequence of
station events the associated-station counter is non-negative, and a
`DEL_STATION` event arriving with the counter at zero leaves the controller
unchanged and emits, besides the unconditional disassociation line, exactly
the one anomaly log entry instead of decrementing. -/
theorem claim_C2_counter_nonneg (name : String) (idx : Nat)
    (evs : List StationEvent) :
    0 ≤ GetNumberOfAssociatedStations (runStationEvents (mkApCtrl name idx) evs).1 ∧
    (GetNumberOfAssociatedStations (runStationEvents (mkApCtrl name idx) evs).1 = 0 →
      OnStationEvent (runStationEvents (mkApCtrl name idx) evs).1 .del_station =
        ((runStationEvents (mkApCtrl name idx) evs).1,
         [.log .delStation, .log (.delStationAnomaly 0)])) := by
  constructor
  · exact runStationEvents_nonneg evs _ (by simp [mkApCtrl])
  · intro h0
    unfold GetNumberOfAssociatedStations at h0
    unfold OnStationEvent
    rw [h0]
    simp

/-- Witness for C2: a lone `DEL_STATION` on a fresh controller. -/
theorem claim_C2_witness :
    OnStationEvent (runStationEvents (mkApCtrl "wlan0" 1) [.del_station]).1
        .del_station =
      ((runStationEvents (mkApCtrl "wlan0" 1) [.del_station]).1,
       [.log .delStation, .log (.delStationAnomaly 0)]) :=
  (claim_C2_counter_nonneg "wlan0" 1 [.del_station]).2 (by decide)

/-! ### C3: StopHostapd cleanup sequencing -/

/-- **C3 counterexample.** When the external daemon-stop call fails,
`StopHostapd` returns failure immediately: the interface is neither marked
down nor reset to station mode, refuting the claim that both cleanup steps
run regardless of the daemon-stop outcome (and the operation fails here even
though the mode-reset step never ran, let alone failed). -/
theorem claim_C3_counterexample :
    StopHostapd ⟨false, true, true⟩ apWlan = (false, [.daemonStopAttempt]) ∧
    Action.setUpState "wlan0" false ∉ (StopHostapd ⟨false, true, true⟩ apWlan).2 ∧
    Action.setInterfaceMode 7 .station ∉ (StopHostapd ⟨false, true, true⟩ apWlan).2 := by
  decide

/-- **C3 amended.** `StopHostapd` runs its three steps in sequence with an
early exit after the first failure: it succeeds iff daemon stop, mark-down
and mode reset all succeed; the mark-down is attempted iff the daemon stop
succeeded; the mode reset is attempted iff both earlier steps succeeded; the
daemon-stop attempt always happens. -/
theorem claim_C3_amended (e : ApEnv) (ap : ApCtrl) :
    ((StopHostapd e ap).1 = true ↔
       (e.hostapd_stop_ok = true ∧ e.set_up_state_ok = true ∧
        e.set_interface_mode_ok = true)) ∧
    (Action.setUpState ap.interface_name false ∈ (StopHostapd e ap).2 ↔
       e.hostapd_stop_ok = true) ∧
    (Action.setInterfaceMode ap.interface_index .station ∈ (StopHostapd e ap).2 ↔
       (e.hostapd_stop_ok = true ∧ e.set_up_state_ok = true)) ∧
    Action.daemonStopAttempt ∈ (StopHostapd e ap).2 := by
  rcases e with ⟨b1, b2, b3⟩
  cases b1 <;> cases b2 <;> cases b3 <;> simp [StopHostapd]

/-- Witness for C3 with every collaborator call succeeding. -/
theorem claim_C3_witness :
    (StopHostapd ⟨true, true, true⟩ apWlan).1 = true :=
  (claim_C3_amended ⟨true, true, true⟩ apWlan).1.2 ⟨rfl, rfl, rfl⟩

/-! ### C5: controller teardown order -/

/-- **C5 counterexample.** In the `ApInterfaceImpl` destructor the kernel
unsubscribe is the LAST step: it comes after the mark-down, there is no
daemon-stop step at all, and the same order shows in a full
`tearDownApInterfaces` trace — refuting the claimed
notify → unsubscribe → daemon-stop → mark-down order. -/
theorem claim_C5_counterexample :
    apDestructTrace apWlan =
      [.notifyImplDead 7, .setUpState "wlan0" false, .unsubscribeStation 7] ∧
    precedesB (.unsubscribeStation 7) (.setUpState "wlan0" false)
        (apDestructTrace apWlan) = false ∧
    Action.daemonStopAttempt ∉ apDestructTrace apWlan ∧
    precedesB (.unsubscribeStation 7) (.setUpState "wlan0" false)
        (tearDownApInterfaces { initState with ap_interfaces := [apWlan] }).trace = false ∧
    precedesB (.setUpState "wlan0" false) (.unsubscribeStation 7)
        (tearDownApInterfaces { initState with ap_interfaces := [apWlan] }).trace = true := by
  decide

/-- **C5 amended.** Teardown of an AP controller broadcasts the torn-down
event and then destroys the controller, whose destructor performs, in order:
(1) notify the binder the implementation is dead, (2) mark the kernel
interface administratively down, (3) unsubscribe from station events for the
interface index.  No daemon-stop runs during destruction, and the
unsubscribe follows (never precedes) the mark-down. -/
theorem claim_C5_teardown_order (s : ServerState) (ap : ApCtrl) :
    tearDownApInterfaces s =
      ⟨.ok, { s with ap_interfaces := [] },
       (s.ap_interfaces.flatMap
          (fun a => BroadcastApInterfaceTornDown s.interface_event_callbacks
                      a.interface_index)) ++
       s.ap_interfaces.flatMap apDestructTrace⟩ ∧
    precedesB (.notifyImplDead ap.interface_index)
        (.setUpState ap.interface_name false) (apDestructTrace ap) = true ∧
    precedesB (.setUpState ap.interface_name false)
        (.unsubscribeStation ap.interface_index) (apDestructTrace ap) = true ∧
    Action.daemonStopAttempt ∉ apDestructTrace ap := by
  refine ⟨rfl, ?_, ?_, ?_⟩ <;> simp [apDestructTrace, precedesB]

/-- Witness for C5 at a concrete controller. -/
theorem claim_C5_witness :
    precedesB (.notifyImplDead 7) (.setUpState "wlan0" false)
      (apDestructTrace apWlan) = true :=
  (claim_C5_teardown_order initState apWlan).2.1

/-! ### C4: AP interface creation gating -/

theorem SetupInterface_fst_ap_indep (env : Env) (s : ServerState)
    (l : List ApCtrl) :
    (SetupInterface env { s with ap_interfaces := l }).1 =
      (SetupInterface env s).1 := by
  unfold SetupInterface
  cases he : s.client_interfaces.isEmpty with
  | false => simp [he]
  | true =>
    simp only [he]
    cases h1 : env.wiphy_index_for s.base_ifname with
    | none => rfl
    | some w =>
      simp only
      cases h2 : env.kernel_interfaces w with
      | none => rfl
      | some ifs =>
        simp only
        cases h3 : ifs.find? usableForStation <;> rfl

theorem createApInterface_created_eq (env : Env) (s : ServerState) :
    (createApInterface env s).created =
      ((SetupInterface env s).1).map (fun i => mkApCtrl i.name i.index) := by
  unfold createApInterface
  cases h : SetupInterface env s with
  | mk i rest =>
    cases rest with
    | mk s1 acts => cases i <;> rfl

theorem createClientInterface_created_isSome (env : Env) (s : ServerState) :
    (createClientInterface env s).created.isSome = (SetupInterface env s).1.isSome := by
  unfold createClientInterface
  cases h : SetupInterface env s with
  | mk i rest =>
    cases rest with
    | mk s1 acts => cases i <;> rfl

/-- **C4 counterexample.** `createApInterface` shares `SetupInterface` with
station creation, so (a) in a state holding a station controller AP creation
fails and leaves the state unchanged even though the snapshot has a usable
interface, and (b) with an empty state but a snapshot holding only `softap0`
AP creation fails — the station exclusion list IS applied to AP creation.
Both refute the claim that AP creation is always permitted and skips the
exclusion list. -/
theorem claim_C4_counterexample :
    sConflict.client_interfaces ≠ [] ∧
    (createApInterface env9 sConflict).created = none ∧
    (createApInterface env9 sConflict).state = sConflict ∧
    env4b.kernel_interfaces 0 = some [⟨3, "softap0", []⟩] ∧
    (createApInterface env4b initState).created = none := by
  decide

/-- **C4 amended.** `createApInterface` performs the same radio-resolution
and snapshot steps as station creation through the shared `SetupInterface`:
it succeeds exactly when station creation would, it fails in any state with
a registered station controller, and its outcome ignores the AP collection
(so multiple AP interfaces are permitted); the descriptor it registers is
the station-exclusion-filtered first match. -/
theorem claim_C4_ap_creation (env : Env) (s : ServerState) :
    ((createApInterface env s).created.isSome =
       (createClientInterface env s).created.isSome) ∧
    (s.client_interfaces ≠ [] → (createApInterface env s).created = none) ∧
    (∀ l, (createApInterface env { s with ap_interfaces := l }).created =
       (createApInterface env s).created) ∧
    ((createApInterface env s).created =
       ((SetupInterface env s).1).map (fun i => mkApCtrl i.name i.index)) := by
  refine ⟨?_, ?_, ?_, createApInterface_created_eq env s⟩
  · rw [createClientInterface_created_isSome, createApInterface_created_eq]
    cases (SetupInterface env s).1 <;> rfl
  · intro h
    rw [createApInterface_created_eq, SetupInterface_conflict env s h]
    rfl
  · intro l
    rw [createApInterface_created_eq, createApInterface_created_eq,
        SetupInterface_fst_ap_indep]

/-- Witness for C4 at the populated station state. -/
theorem claim_C4_witness :
    (createApInterface env9 sConflict).created = none :=
  (claim_C4_ap_creation env9 sConflict).2.1 (by decide)

/-! ### C7: listener registry -/

theorem eraseFirst_eq_erase (l : List Nat) (cb : Nat) :
    eraseFirst l cb = l.erase cb := by
  induction l with
  | nil => rfl
  | cons x xs ih =>
    unfold eraseFirst
    rw [List.erase_cons]
    by_cases hx : x = cb
    · simp [hx]
    · simp [hx, ih]

theorem RegisterCallback_nodup (s : ServerState) (cb : Nat)
    (h : s.interface_event_callbacks.Nodup) :
    (RegisterCallback s cb).2.interface_event_callbacks.Nodup := by
  unfold RegisterCallback
  split
  · exact h
  · next hmem =>
    exact List.Nodup.append h (List.nodup_singleton cb)
      (by simpa [List.disjoint_singleton] using hmem)

theorem UnregisterCallback_nodup (s : ServerState) (cb : Nat)
    (h : s.interface_event_callbacks.Nodup) :
    (UnregisterCallback s cb).2.interface_event_callbacks.Nodup := by
  unfold UnregisterCallback
  dsimp
  rw [eraseFirst_eq_erase]
  exact h.erase cb

theorem runRegOps_nodup (ops : List RegOp) (s : ServerState)
    (h : s.interface_event_callbacks.Nodup) :
    (runRegOps s ops).interface_event_callbacks.Nodup := by
  induction ops generalizing s with
  | nil => exact h
  | cons op ops ih =>
    unfold runRegOps
    apply ih
    cases op with
    | reg cb => exact RegisterCallback_nodup s cb h
    | unreg cb => exact UnregisterCallback_nodup s cb h

theorem notifyListener_injective (ev : ListenerEvent) :
    Function.Injective (fun cb => Action.notifyListener cb ev) := by
  intro a b hab
  simpa using hab

/-- **C7.** In every registry state reachable from an empty listener list:
re-registering a present listener is a no-op; after registering, the listener
has exactly one entry, so a broadcast notifies it exactly once; unregistering
an absent listener is a no-op; unregistering a present listener removes its
(single) entry and leaves every other listener's entry count unchanged. -/
theorem claim_C7_registry (ops : List RegOp) (cb x payload : Nat)
    (s0 : ServerState) (h0 : s0.interface_event_callbacks = []) :
    (cb ∈ (runRegOps s0 ops).interface_event_callbacks →
       (RegisterCallback (runRegOps s0 ops) cb).2 = runRegOps s0 ops) ∧
    ((RegisterCallback (runRegOps s0 ops) cb).2.interface_event_callbacks.count cb
       = 1) ∧
    ((BroadcastApInterfaceReady
        (RegisterCallback (runRegOps s0 ops) cb).2.interface_event_callbacks
        payload).count (.notifyListener cb (.apReady payload)) = 1) ∧
    (cb ∉ (runRegOps s0 ops).interface_event_callbacks →
       (UnregisterCallback (runRegOps s0 ops) cb).2 = runRegOps s0 ops) ∧
    (cb ∈ (runRegOps s0 ops).interface_event_callbacks →
       (UnregisterCallback (runRegOps s0 ops) cb).2.interface_event_callbacks.count cb
         = 0) ∧
    (x ≠ cb →
       (UnregisterCallback (runRegOps s0 ops) cb).2.interface_event_callbacks.count x
         = (runRegOps s0 ops).interface_event_callbacks.count x) := by
  have hnd : (runRegOps s0 ops).interface_event_callbacks.Nodup :=
    runRegOps_nodup ops s0 (by rw [h0]; exact List.nodup_nil)
  have hreg_count :
      (RegisterCallback (runRegOps s0 ops) cb).2.interface_event_callbacks.count cb
        = 1 := by
    unfold RegisterCallback
    split
    · next hmem => exact List.count_eq_one_of_mem hnd hmem
    · next hmem =>
      dsimp
      rw [List.count_append]
      rw [List.count_eq_zero_of_not_mem hmem]
      simp
  refine ⟨?_, hreg_count, ?_, ?_, ?_, ?_⟩
  · intro hmem
    unfold RegisterCallback
    rw [if_pos hmem]
  · rw [BroadcastApInterfaceReady,
        List.count_map_of_injective _ _ (notifyListener_injective (.apReady payload)),
        hreg_count]
  · intro hmem
    unfold UnregisterCallback
    dsimp
    rw [eraseFirst_eq_erase, List.erase_of_not_mem hmem]
  · intro hmem
    unfold UnregisterCallback
    dsimp
    rw [eraseFirst_eq_erase, List.count_erase_self,
        List.count_eq_one_of_mem hnd hmem]
  · intro hx
    unfold UnregisterCallback
    dsimp
    rw [eraseFirst_eq_erase, List.count_erase_of_ne hx]

/-- Witness for C7: double registration of listener 5 followed by an
unregistration of the absent listener 9 leaves exactly one entry for 5. -/
theorem claim_C7_witness :
    (RegisterCallback (runRegOps initState [.reg 5, .reg 5, .unreg 9])
        5).2.interface_event_callbacks.count 5 = 1 :=
  (claim_C7_registry [.reg 5, .reg 5, .unreg 9] 5 9 3 initState rfl).2.1

/-! ### C8: command token bound -/

/-- **C8.** A raw command that tokenizes into more than ten whitespace-
separated tokens is rejected before any dispatch: the transport status is
OK, `out_success` is false, the dispatcher state (server plus static AP
slot) is untouched and the trace holds only the too-long log — no kernel,
daemon or vendor-tool call, whatever the tokens' content. -/
theorem claim_C8_token_bound (env : Env) (ds : DispatchState)
    (tokens : List String) (h : tokens.length > 10) :
    setHostapdParam env ds tokens = ⟨.ok, false, ds, [.log .commandTooLong]⟩ := by
  unfold setHostapdParam
  rw [if_pos h]

/-- Witness for C8: eleven one-letter tokens. -/
theorem claim_C8_witness :
    setHostapdParam env9 ⟨initState, none⟩
        ["a", "b", "c", "d", "e", "f", "g", "h", "i", "j", "k"] =
      ⟨.ok, false, ⟨initState, none⟩, [.log .commandTooLong]⟩ :=
  claim_C8_token_bound env9 ⟨initState, none⟩ _ (by decide)

/-! ### C10: binder entry points always return an OK status -/

theorem dualStartap_status_ok (env : Env) (ds : DispatchState)
    (b c d : String) : (dualStartap env ds b c d).status = .ok := by
  unfold dualStartap
  dsimp only
  split
  · rfl
  · split <;> rfl

theorem singleStartap_status_ok (env : Env) (ds : DispatchState) :
    (singleStartap env ds).status = .ok := by
  unfold singleStartap
  dsimp only
  split
  · rfl
  · split <;> rfl

theorem stopApCmd_status_ok (env : Env) (ds : DispatchState) (dual : Bool) :
    (stopApCmd env ds dual).status = .ok := by
  unfold stopApCmd
  split
  · rfl
  · split
    · rfl
    · split <;> rfl

theorem setHostapdParam_status_ok (env : Env) (ds : DispatchState)
    (tokens : List String) : (setHostapdParam env ds tokens).status = .ok := by
  unfold setHostapdParam
  split
  · rfl
  · split
    · repeat' split
      all_goals
        first
          | rfl
          | apply dualStartap_status_ok
          | apply stopApCmd_status_ok
    · repeat' split
      all_goals
        first
          | rfl
          | apply singleStartap_status_ok
          | apply stopApCmd_status_ok
    · rfl

/-- **C10.** Every public lifecycle entry point of the server returns an OK
transport status regardless of internal success or failure; for the creation
operations, failure is observable only through the out parameter being left
unset (`created = none`), never through a non-OK status. -/
theorem claim_C10_status_always_ok (env : Env) (s : ServerState) (cb : Nat)
    (ifname : String) (tokens : List String) (slot : Option ApCtrl) :
    (RegisterCallback s cb).1 = .ok ∧
    (UnregisterCallback s cb).1 = .ok ∧
    (createClientInterface env s).status = .ok ∧
    (createApInterface env s).status = .ok ∧
    (QcCreateApInterface env s ifname).status = .ok ∧
    (tearDownInterfaces env s).status = .ok ∧
    (tearDownStaInterfaces s).status = .ok ∧
    (tearDownApInterfaces s).status = .ok ∧
    (setHostapdParam env ⟨s, slot⟩ tokens).status = .ok := by
  refine ⟨?_, rfl, createClientInterface_status_ok env s,
          createApInterface_status_ok env s,
          QcCreateApInterface_status_ok env s ifname, rfl, rfl, rfl,
          setHostapdParam_status_ok env ⟨s, slot⟩ tokens⟩
  unfold RegisterCallback
  split <;> rfl

/-- Witness for C10 at a concrete environment and state. -/
theorem claim_C10_witness :
    (createClientInterface env9 sConflict).status = .ok :=
  (claim_C10_status_always_ok env9 sConflict 5 "br0" ["cmd"] none).2.2.1

/-! ### C6: dual-AP start sequencing -/

theorem QcSetupInterface_state_aps (env : Env) (s : ServerState) (n : String) :
    (QcSetupInterface env s n).2.1.ap_interfaces = s.ap_interfaces := by
  unfold QcSetupInterface
  cases h1 : env.wiphy_index_for s.base_ifname with
  | none => rfl
  | some w =>
    simp only
    cases h2 : env.kernel_interfaces w with
    | none => rfl
    | some ifs =>
      simp only
      cases h3 : ifs.find? (fun i => strStartsWith i.name n) with
      | some i => rfl
      | none =>
        simp only
        split
        · rfl
        · cases h4 : env.iface_hwaddr n <;> rfl

theorem QcCreateApInterface_aps_mono (env : Env) (s : ServerState)
    (n : String) (ap : ApCtrl) (h : ap ∈ s.ap_interfaces) :
    ap ∈ (QcCreateApInterface env s n).state.ap_interfaces := by
  have haps := QcSetupInterface_state_aps env s n
  unfold QcCreateApInterface
  cases hq : QcSetupInterface env s n with
  | mk i rest =>
    cases rest with
    | mk s1 acts =>
      rw [hq] at haps
      dsimp at haps
      cases i with
      | none => dsimp; rw [haps]; exact h
      | some j =>
        dsimp
        rw [haps]
        exact List.mem_append_left _ h

/-- **C6 counterexample.** With the bridge resolving but `sap0`/`sap1` not:
the second sub-creation fails (its out parameter stays unset), yet the
dual-start command still reports `success = true`, because
`QcCreateApInterface` returns an OK status on every path so the `&&` chain
never sees the failure; the bridge AP interface stays registered.  This
refutes the claimed `success = false` on a second-sub-creation failure. -/
theorem claim_C6_counterexample :
    (QcCreateApInterface env6
        (QcCreateApInterface env6 initState "br0").state "sap0").created = none ∧
    (setHostapdParam env6 ⟨initState, none⟩
        ["cmd", "startap", "dual", "br0", "sap0", "sap1"]).success = true ∧
    (⟨"br0", 3, 0⟩ : ApCtrl) ∈
      (setHostapdParam env6 ⟨initState, none⟩
        ["cmd", "startap", "dual", "br0", "sap0", "sap1"]).dstate.server.ap_interfaces := by
  decide

/-- **C6 amended.** The dual-start tokens dispatch to the three-creation
sequence; because every `QcCreateApInterface` status is OK, the command's
success does not depend on the second or third sub-creation: it is true iff
the static slot is non-null after the first (bridge) creation and the
`startHostapd` binder call is OK.  When all three sub-creations and the
hostapd start succeed the command succeeds, and whatever happens to the
later steps, every AP interface registered by the first creation stays
registered — there is no rollback. -/
theorem claim_C6_dual_sequencing (env : Env) (srv : ServerState)
    (slot : Option ApCtrl) :
    (setHostapdParam env ⟨srv, slot⟩
        ["cmd", "startap", "dual", "br0", "sap0", "sap1"] =
      dualStartap env ⟨srv, slot⟩ "br0" "sap0" "sap1") ∧
    ((dualStartap env ⟨srv, slot⟩ "br0" "sap0" "sap1").success =
      ((match (QcCreateApInterface env srv "br0").created with
        | some c => some c
        | none => slot : Option ApCtrl).isSome && env.start_hostapd_binder_ok)) ∧
    (∀ ap, ap ∈ (QcCreateApInterface env srv "br0").state.ap_interfaces →
       ap ∈ (dualStartap env ⟨srv, slot⟩
               "br0" "sap0" "sap1").dstate.server.ap_interfaces) := by
  refine ⟨rfl, ?_, ?_⟩
  · unfold dualStartap
    dsimp only
    cases hc : (QcCreateApInterface env srv "br0").created with
    | none =>
      cases slot with
      | none => simp
      | some c => cases hb : env.start_hostapd_binder_ok <;> simp [hb]
    | some c => cases hb : env.start_hostapd_binder_ok <;> simp [hb]
  · intro ap h1
    have h2 := QcCreateApInterface_aps_mono env
      (QcCreateApInterface env srv "br0").state "sap0" ap h1
    have h3 := QcCreateApInterface_aps_mono env
      (QcCreateApInterface env
        (QcCreateApInterface env srv "br0").state "sap0").state "sap1" ap h2
    unfold dualStartap
    dsimp only
    cases hc : (QcCreateApInterface env srv "br0").created with
    | none =>
      cases slot with
      | none => exact h3
      | some c => cases hb : env.start_hostapd_binder_ok <;> simp [hb] <;> exact h3
    | some c => cases hb : env.start_hostapd_binder_ok <;> simp [hb] <;> exact h3

/-- Witness for C6: with all three sub-creations resolving and hostapd
starting, the bridge AP interface is registered after the dual start (and
`claim_C6_dual_sequencing` also gives `success = true` there). -/
theorem claim_C6_witness :
    (⟨"br0", 3, 0⟩ : ApCtrl) ∈
      (dualStartap env6b ⟨initState, none⟩
        "br0" "sap0" "sap1").dstate.server.ap_interfaces :=
  (claim_C6_dual_sequencing env6b initState none).2.2 ⟨"br0", 3, 0⟩ (by decide)

/-! ### C9: station exclusion list -/

/-- **C9.** With no station controller registered, a resolving radio and a
fetched snapshot, station-interface creation selects exactly the first
descriptor that is not `p2p0` and not prefixed `aware_data`/`softap`; if no
descriptor qualifies, creation fails and logs the no-usable-interface
error. -/
theorem claim_C9_exclusion (env : Env) (s : ServerState) (w : Nat)
    (ifs : List InterfaceInfo)
    (h : s.client_interfaces = [])
    (hw : env.wiphy_index_for s.base_ifname = some w)
    (hi : env.kernel_interfaces w = some ifs) :
    ((createClientInterface env s).created =
      (ifs.find? usableForStation).map
        (fun i => (⟨w, i.name, i.index, i.mac_address⟩ : ClientCtrl))) ∧
    (ifs.find? usableForStation = none →
      (createClientInterface env s).created = none ∧
      Action.log .noUsableInterface ∈ (createClientInterface env s).trace) := by
  have hsetup : SetupInterface env s =
      (ifs.find? usableForStation,
       { s with wiphy_index := w, interfaces := ifs },
       match ifs.find? usableForStation with
       | some _ => [.subscribeRegDomain w, .fetchInterfaces w]
       | none => [.subscribeRegDomain w, .fetchInterfaces w,
                  .log .noUsableInterface]) := by
    unfold SetupInterface
    rw [h]
    rw [if_neg (by simp)]
    rw [hw]
    dsimp only
    rw [hi]
    dsimp only
    cases hf : ifs.find? usableForStation <;> rfl
  constructor
  · unfold createClientInterface
    rw [hsetup]
    cases hf : ifs.find? usableForStation <;> rfl
  · intro hf
    unfold createClientInterface
    rw [hsetup, hf]
    exact ⟨rfl, by simp⟩

/-- Witness for C9: from the snapshot `p2p0`, `aware_data0`, `softap0`,
`wlan1` station creation selects `wlan1`. -/
theorem claim_C9_witness :
    (createClientInterface env9 initState).created =
      some ⟨0, "wlan1", 4, []⟩ :=
  ((claim_C9_exclusion env9 initState 0 snap9 rfl rfl rfl).1).trans (by decide)

end Wificond
